import Mathlib

/-
Verification of the TcpReader reactor (src/network/tcp/reader.rs) of the
treescale repository.  The Rust code is shallowly embedded: the reader state
(`connections` vector plus `connection_keys` BTreeMap) becomes a Lean
structure, each handler becomes a Lean function, and every externally visible
action (poll registration calls, channel sends to the TcpNetwork loop) is
recorded in an explicit list of `Effect`s.  Operations that can panic in Rust
(out-of-bounds `Vec::remove` / indexing) return `Option`, with `none`
modelling the panic.
-/

namespace TreeScale

/-- One connection owned by the reader, mirroring `TcpReaderConn` as used by
reader.rs: the socket (identified by an id), its token, and the pending
outbound `write_queue`.  The incremental read state is internal to
`TcpReaderConn::read_data`, which is not part of reader.rs; reads are
therefore modelled by an outcome oracle (see `ReadOutcome`). -/
structure TcpReaderConn where
  sockId : Nat
  token : Nat
  write_queue : List (List Nat)
deriving DecidableEq, Repr

/-- `TcpReaderConn::new(sock, token)`: fresh connection with an empty write
queue. -/
def TcpReaderConn.new (sock : Nat) (token : Nat) : TcpReaderConn :=
  ⟨sock, token, []⟩

/-- Default connection used only as the `getD` fallback; the model always
guards indexing with an explicit bounds check, returning `none` (panic) when
the check fails, so this value is never semantically relevant. -/
def defaultConn : TcpReaderConn := ⟨0, 0, []⟩

/-- The `connection_keys : BTreeMap<Token, usize>` of reader.rs, modelled as
an association list with unique keys (insert overwrites). -/
abbrev KeyMap := List (Nat × Nat)

/-- `BTreeMap::contains_key`. -/
def mapContains (m : KeyMap) (k : Nat) : Bool :=
  m.any (fun p => p.1 == k)

/-- `BTreeMap` indexing `m[&k]`; only ever called after a `contains_key`
check in reader.rs, so the fallback 0 for an absent key is never reached
along modelled paths. -/
def mapGet (m : KeyMap) (k : Nat) : Nat :=
  match m.find? (fun p => p.1 == k) with
  | some p => p.2
  | none => 0

/-- `BTreeMap::insert` (overwrites an existing key). -/
def mapInsert (m : KeyMap) (k v : Nat) : KeyMap :=
  (k, v) :: m.filter (fun p => p.1 != k)

/-- `BTreeMap::remove`. -/
def mapRemove (m : KeyMap) (k : Nat) : KeyMap :=
  m.filter (fun p => p.1 != k)

/-- mio `Ready` readiness as a set of four bits; mio equality of `Ready`
values is bitwise, i.e. structural equality here. -/
structure Ready where
  readable : Bool
  writable : Bool
  error : Bool
  hup : Bool
deriving DecidableEq, Repr

/-- `Ready::readable()`. -/
def Ready.readableOnly : Ready := ⟨true, false, false, false⟩

/-- `Ready::writable()`. -/
def Ready.writableOnly : Ready := ⟨false, true, false, false⟩

/-- `Ready::error()`. -/
def Ready.errorOnly : Ready := ⟨false, false, true, false⟩

/-- `Ready::hup()`. -/
def Ready.hupOnly : Ready := ⟨false, false, false, true⟩

/-- readable with writable inserted, as built by `make_writable`. -/
def Ready.readWrite : Ready := ⟨true, true, false, false⟩

/-- Codes of `TcpNetworkCommand`s that reader.rs sends to the TcpNetwork
loop. -/
inductive TcpNetworkCMD where
  | HandleNewData
  | ConnectionClosed
deriving DecidableEq, Repr

/-- Externally visible actions of the reader: poll (re/de)registrations and
channel sends to the TcpNetwork loop.  `register` and `deregister` are part
of the vocabulary so that their absence from a trace is meaningful (reader.rs
never emits either for a connection socket). -/
inductive Effect where
  | register (sock token : Nat) (interest : Ready) (edge oneshot : Bool)
  | reregister (sock token : Nat) (interest : Ready) (edge oneshot : Bool)
  | deregister (sock : Nat)
  | sendNet (cmd : TcpNetworkCMD) (token : Nat) (data : List (List Nat))
deriving DecidableEq, Repr

/-- `TcpReaderCMD`. -/
inductive TcpReaderCMD where
  | HandleNewConnection
  | CloseConnection
  | SendData
deriving DecidableEq, Repr

/-- `TcpReaderCommand`: code plus the socket / token / data vectors.  Vectors
are lists in source order; `Vec::pop` takes from the end. -/
structure TcpReaderCommand where
  code : TcpReaderCMD
  socket : List Nat
  token : List Nat
  data : List (List Nat)
deriving DecidableEq, Repr

/-- The mutable state of `TcpReader` relevant to the handlers: the
`connections` vector and the `connection_keys` map. -/
structure TcpReader where
  connections : List TcpReaderConn
  connection_keys : KeyMap
deriving DecidableEq, Repr

/-- `TcpReader::new`: empty table. -/
def TcpReader.new : TcpReader := ⟨[], []⟩

/-- `{ c with write_queue := c.write_queue ++ data }`: the effect of
`write_queue.append(&mut cmd.data)` on the connection (the command data is
drained to empty by `Vec::append`, which the caller models separately). -/
def connAppend (c : TcpReaderConn) (data : List (List Nat)) : TcpReaderConn :=
  { c with write_queue := c.write_queue ++ data }

/-- `TcpReader::make_writable`: reregister the connection socket for
readable|writable interest with `PollOpt::edge() | PollOpt::oneshot()`. -/
def make_writable (c : TcpReaderConn) : Effect :=
  Effect.reregister c.sockId c.token Ready.readWrite true true

/-- The `while !cmd.socket.is_empty() && !cmd.token.is_empty()` loop of the
HandleNewConnection arm of `TcpReader::notify`.  `Vec::pop` removes from the
end, so the caller passes the reversed vectors; each iteration pushes a new
connection and records its index `connections.len() - 1` in the key map.
Returns the new vector, the new key map, and the unconsumed (still reversed)
remainders of the two input vectors. -/
def handleNewLoop :
    List Nat → List Nat → List TcpReaderConn → KeyMap →
      List TcpReaderConn × KeyMap × List Nat × List Nat
  | sock :: socks, token :: tokens, conns, keys =>
      handleNewLoop socks tokens (conns ++ [TcpReaderConn.new sock token])
        (mapInsert keys token ((conns ++ [TcpReaderConn.new sock token]).length - 1))
  | socks, tokens, conns, keys => (conns, keys, socks, tokens)

/-- `TcpReader::close_connection(token, send_data_event)`: absent token is a
no-op; otherwise `connections.remove(i)` (a shifting positional removal,
panicking — `none` — when the cached index is out of bounds) followed by
`connection_keys.remove(&token)`, and a `ConnectionClosed` send when
`send_data_event` is set. -/
def close_connection (s : TcpReader) (token : Nat) (send_data_event : Bool) :
    Option (TcpReader × List Effect) :=
  if !mapContains s.connection_keys token then some (s, [])
  else if mapGet s.connection_keys token < s.connections.length then
    some ({ connections := s.connections.eraseIdx (mapGet s.connection_keys token),
            connection_keys := mapRemove s.connection_keys token },
          if send_data_event
            then [Effect.sendNet TcpNetworkCMD.ConnectionClosed token []]
            else [])
  else none

/-- The `while !cmd.token.is_empty()` loop of the CloseConnection arm of
`TcpReader::notify` (tokens already reversed to model popping). -/
def closeLoop : TcpReader → List Nat → Option (TcpReader × List Effect)
  | s, [] => some (s, [])
  | s, t :: rest =>
      match close_connection s t false with
      | none => none
      | some (s1, effs) =>
          match closeLoop s1 rest with
          | none => none
          | some (s2, effs2) => some (s2, effs ++ effs2)

/-- The `while !cmd.token.is_empty()` loop of the SendData arm of
`TcpReader::notify` (tokens already reversed to model popping).  For a token
in the key map the cached index is used to index `connections` (panic —
`none` — when out of bounds), `write_queue.append(&mut cmd.data)` moves the
whole remaining data vector into that queue leaving the command data empty,
and `make_writable` is called on the connection.  The state update for a
matched token with cached index `i` is factored into `appendAt`: replace the
connection at `i` with the one whose write queue has the command data
appended. -/
def appendAt (s : TcpReader) (i : Nat) (data : List (List Nat)) : TcpReader :=
  { s with connections := s.connections.set i (connAppend (s.connections.getD i defaultConn) data) }

def sendDataLoop :
    TcpReader → List Nat → List (List Nat) → List Effect →
      Option (TcpReader × List (List Nat) × List Effect)
  | s, [], data, effs => some (s, data, effs)
  | s, t :: rest, data, effs =>
      if !mapContains s.connection_keys t then
        sendDataLoop s rest data effs
      else if mapGet s.connection_keys t < s.connections.length then
        sendDataLoop (appendAt s (mapGet s.connection_keys t) data) rest []
          (effs ++ [make_writable
            (connAppend (s.connections.getD (mapGet s.connection_keys t) defaultConn) data)])
      else none

/-- `TcpReader::notify(cmd)`: dispatch on the command code.  The returned
command is the mutated `cmd` (its vectors are consumed by popping); effects
record channel sends and poll calls.  `none` models a panic. -/
def notify (s : TcpReader) (cmd : TcpReaderCommand) :
    Option (TcpReader × TcpReaderCommand × List Effect) :=
  match cmd.code with
  | TcpReaderCMD.HandleNewConnection =>
      match handleNewLoop cmd.socket.reverse cmd.token.reverse
          s.connections s.connection_keys with
      | (conns, keys, socksLeft, toksLeft) =>
          some ({ connections := conns, connection_keys := keys },
                { cmd with socket := socksLeft.reverse, token := toksLeft.reverse }, [])
  | TcpReaderCMD.CloseConnection =>
      match closeLoop s cmd.token.reverse with
      | none => none
      | some (s1, effs) => some (s1, { cmd with token := [] }, effs)
  | TcpReaderCMD.SendData =>
      if cmd.data.length = 0 then some (s, cmd, [])
      else
        match sendDataLoop s cmd.token.reverse cmd.data [] with
        | none => none
        | some (s1, data1, effs) =>
            some (s1, { cmd with token := [], data := data1 }, effs)

/-- One outcome of a call to `TcpReaderConn::read_data` (code outside this
file; treated as an oracle): either `Ok((rd, completed))` or an I/O error. -/
inductive ReadOutcome where
  | ok (rd : List Nat) (completed : Bool)
  | ioerr
deriving DecidableEq, Repr

/-- The `loop` inside `TcpReader::readable`, parametrised by the sequence of
`read_data` outcomes for this wake: an error closes the connection with
notification; a non-empty `rd` is pushed onto `total_data`; `completed =
false` breaks the loop; after the loop a `HandleNewData` send always happens
with the accumulated batch.  An exhausted outcome list is treated as the
terminal would-block read. -/
def readableLoop (s : TcpReader) (token : Nat) :
    List ReadOutcome → List (List Nat) → Option (TcpReader × List Effect)
  | [], total =>
      some (s, [Effect.sendNet TcpNetworkCMD.HandleNewData token total])
  | ReadOutcome.ioerr :: _, _ => close_connection s token true
  | ReadOutcome.ok rd completed :: rest, total =>
      if !completed then
        some (s, [Effect.sendNet TcpNetworkCMD.HandleNewData token
          (if rd.length > 0 then total ++ [rd] else total)])
      else
        readableLoop s token rest (if rd.length > 0 then total ++ [rd] else total)

/-- `TcpReader::readable(token)`: absent token is a no-op; the cached index
is used to reach the connection for `read_data` (panic — `none` — when out of
bounds); then the read loop runs. -/
def readable (s : TcpReader) (token : Nat) (outcomes : List ReadOutcome) :
    Option (TcpReader × List Effect) :=
  if !mapContains s.connection_keys token then some (s, [])
  else if mapGet s.connection_keys token < s.connections.length then
    readableLoop s token outcomes []
  else none

/-- `TcpReader::writable(token)`: the body in reader.rs is empty. -/
def writable (s : TcpReader) (_token : Nat) : TcpReader × List Effect :=
  (s, [])

/-- The per-event dispatch of `TcpReader::run` for a non-channel token: the
chain of `if kind == Ready::error() || kind == Ready::hup()`,
`if kind == Ready::readable()`, `if kind == Ready::writable()` comparisons
(each an exact bitwise equality in mio), with a silent fall-through when none
matches. -/
def handleSocketEvent (s : TcpReader) (token : Nat) (kind : Ready)
    (outcomes : List ReadOutcome) : Option (TcpReader × List Effect) :=
  if kind = Ready.errorOnly ∨ kind = Ready.hupOnly then
    close_connection s token true
  else if kind = Ready.readableOnly then
    readable s token outcomes
  else if kind = Ready.writableOnly then
    some (writable s token)
  else
    some (s, [])

/-- Messages decoded during one readable wake, as a function of the
`read_data` outcomes: the non-empty `rd` results collected up to and
including the first outcome with `completed = false` (an error produces
none). -/
def decodedMessages : List ReadOutcome → List (List Nat)
  | [] => []
  | ReadOutcome.ioerr :: _ => []
  | ReadOutcome.ok rd completed :: rest =>
      (if rd.length > 0 then [rd] else []) ++
        (if completed then decodedMessages rest else [])

/-- True when the outcome sequence reaches no I/O error before the loop
breaks. -/
def noReadError : List ReadOutcome → Bool
  | [] => true
  | ReadOutcome.ioerr :: _ => false
  | ReadOutcome.ok _ completed :: rest =>
      if completed then noReadError rest else true

/-- State with tokens 1 and 2 both live, as produced by one
HandleNewConnection batch with sockets [10, 20] and tokens [1, 2]. -/
def c4State : TcpReader :=
  ⟨[⟨20, 2, []⟩, ⟨10, 1, []⟩], [(1, 1), (2, 0)]⟩

/-- State with the single token 1 live (socket 10). -/
def c5State : TcpReader :=
  ⟨[⟨10, 1, []⟩], [(1, 0)]⟩

/-- State with the single token 1 live and a pending outbound buffer. -/
def c3State : TcpReader :=
  ⟨[⟨10, 1, [[7]]⟩], [(1, 0)]⟩

/-- State with the single token 5 live (socket 30). -/
def c7State : TcpReader :=
  ⟨[⟨30, 5, []⟩], [(5, 0)]⟩

/-- After `mapRemove m k`, the key `k` is no longer present. -/
theorem mapContains_mapRemove (m : KeyMap) (k : Nat) :
    mapContains (mapRemove m k) k = false := by
  induction m with
  | nil => rfl
  | cons p m ih =>
    by_cases h : p.1 = k
    · simp [mapRemove, mapContains, h, ih]
    · simp [mapRemove, mapContains, h, ih]

/-- Appending an empty data vector leaves the connection unchanged. -/
theorem connAppend_nil (c : TcpReaderConn) : connAppend c [] = c := by
  cases c
  simp [connAppend]

/-- Writing back the element already stored at an in-bounds index is the
identity. -/
theorem set_getD_self {α : Type} (l : List α) (i : Nat) (d : α)
    (h : i < l.length) : l.set i (l.getD i d) = l := by
  induction l generalizing i with
  | nil => simp at h
  | cons a l ih =>
    cases i with
    | zero => simp
    | succ n =>
      simp only [List.length_cons, Nat.succ_lt_succ_iff] at h
      show a :: l.set n (l.getD n d) = a :: l
      rw [ih n h]

/-- `appendAt` with empty data is the identity on in-bounds indices. -/
theorem appendAt_nil (s : TcpReader) (i : Nat)
    (h : i < s.connections.length) : appendAt s i [] = s := by
  cases s
  simp only [appendAt, connAppend_nil]
  rw [set_getD_self _ _ _ h]

/-- When no read error is reached, the read loop of `TcpReader::readable`
always ends by sending one `HandleNewData` notification whose batch is the
accumulator followed by the messages decoded from the outcomes, in order. -/
theorem readableLoop_noerr (s : TcpReader) (t : Nat) :
    ∀ (outs : List ReadOutcome) (total : List (List Nat)),
      noReadError outs = true →
      readableLoop s t outs total =
        some (s, [Effect.sendNet TcpNetworkCMD.HandleNewData t
          (total ++ decodedMessages outs)]) := by
  intro outs
  induction outs with
  | nil => intro total _; simp [readableLoop, decodedMessages]
  | cons o rest ih =>
    intro total h
    cases o with
    | ioerr => simp [noReadError] at h
    | ok rd completed =>
      cases completed with
      | false =>
        by_cases hr : rd.length > 0 <;>
          simp [readableLoop, decodedMessages, hr]
      | true =>
        rw [noReadError] at h
        simp only [if_true] at h
        by_cases hr : rd.length > 0 <;>
          simp [readableLoop, decodedMessages, hr, ih _ h]

/-- C1. The connection-table bijection does not survive removal: adding the
pairs (socket 10, token 2) and (socket 20, token 3) in one
HandleNewConnection batch and then closing token 3 leaves `connection_keys`
mapping token 2 to index 1 while `connections` has length 1 — the slot the
index designates does not hold token 2's connection (it does not exist), and
a subsequent `close_connection` on token 2 hits an out-of-bounds
`Vec::remove`, modelled as `none` (panic).  This evaluates the code at the
failing input of the claim. -/
theorem index_map_desync_after_remove :
    notify TcpReader.new ⟨TcpReaderCMD.HandleNewConnection, [10, 20], [2, 3], []⟩ =
      some (⟨[⟨20, 3, []⟩, ⟨10, 2, []⟩], [(2, 1), (3, 0)]⟩,
            ⟨TcpReaderCMD.HandleNewConnection, [], [], []⟩, []) ∧
    close_connection ⟨[⟨20, 3, []⟩, ⟨10, 2, []⟩], [(2, 1), (3, 0)]⟩ 3 false =
      some (⟨[⟨10, 2, []⟩], [(2, 1)]⟩, []) ∧
    mapGet [(2, 1)] 2 = 1 ∧
    (([⟨10, 2, []⟩] : List TcpReaderConn).getD (mapGet [(2, 1)] 2) defaultConn).token ≠ 2 ∧
    close_connection ⟨[⟨10, 2, []⟩], [(2, 1)]⟩ 2 true = none := by
  decide

/-- C2. The HandleNewConnection handoff inserts the connection into the table
but its effect trace is empty: no `Effect.register` for the socket is ever
produced (reader.rs only registers the channel receiver), so table
reachability and poll registration come apart at the very first handoff.
This evaluates the code at the failing input of the claim. -/
theorem handoff_inserts_without_registering :
    notify TcpReader.new ⟨TcpReaderCMD.HandleNewConnection, [10], [1], []⟩ =
      some (⟨[⟨10, 1, []⟩], [(1, 0)]⟩,
            ⟨TcpReaderCMD.HandleNewConnection, [], [], []⟩, []) := by
  decide

/-- C3. The write-readiness handler of reader.rs has an empty body: for every
state and token — in particular for `c3State`, whose only connection has the
pending outbound buffer [[7]] — `writable` leaves the state unchanged and
performs no socket write, no interest downgrade and no close.  This evaluates
the code at the failing input of the claim. -/
theorem writable_handler_is_noop :
    (∀ (s : TcpReader) (t : Nat), writable s t = (s, [])) ∧
    writable c3State 1 = (c3State, []) ∧
    (c3State.connections.getD 0 defaultConn).write_queue = [[7]] :=
  ⟨fun _ _ => rfl, rfl, rfl⟩

/-- C4 counterexample. In `c4State` both tokens 1 and 2 are live.  A SendData
command listing tokens [1, 2] with the paired payloads [[7], [8]] does not
give each token its own payload: tokens are popped from the end, token 2 is
matched first and `Vec::append` moves the whole data vector into its queue
([[7], [8]]), after which token 1 — though present and listed — receives
nothing (its queue stays []), while both connections are still reregistered
for read+write.  This refutes the claim at a concrete input. -/
theorem sendData_pairing_counterexample :
    notify c4State ⟨TcpReaderCMD.SendData, [], [1, 2], [[7], [8]]⟩ =
      some (⟨[⟨20, 2, [[7], [8]]⟩, ⟨10, 1, []⟩], [(1, 1), (2, 0)]⟩,
            ⟨TcpReaderCMD.SendData, [], [], []⟩,
            [Effect.reregister 20 2 Ready.readWrite true true,
             Effect.reregister 10 1 Ready.readWrite true true]) ∧
    (⟨10, 1, []⟩ : TcpReaderConn).write_queue = [] := by
  decide

/-- C5 counterexample. In `c5State` token 1 is live.  A readable wake whose
single `read_data` outcome is `Ok(([], false))` — a would-block with zero
complete messages decoded — still sends a `HandleNewData` notification,
carrying an empty batch, contradicting the claim that a notification is sent
only if at least one complete message was decoded. -/
theorem readable_empty_batch_counterexample :
    readable c5State 1 [ReadOutcome.ok [] false] =
      some (c5State, [Effect.sendNet TcpNetworkCMD.HandleNewData 1 []]) := by
  decide

/-- C6 counterexample. In `c7State` token 5 is live.  A poll event whose
readiness combines error with readable (`⟨true, false, true, false⟩`) matches
none of the exact-equality comparisons in the dispatch of `TcpReader::run`,
so the event is silently dropped: the connection stays in the table and no
`ConnectionClosed` notification is sent, contradicting the claim for
combined readiness bits. -/
theorem error_event_combined_bits_dropped :
    handleSocketEvent c7State 5 ⟨true, false, true, false⟩ [] = some (c7State, []) ∧
    mapContains c7State.connection_keys 5 = true := by
  decide

/-- Once the command data has been drained to empty, the remainder of the
SendData loop changes no state at all (it only skips or reregisters):
whatever tokens remain, the final state equals the input state and the data
stays empty. -/
theorem sendDataLoop_drained :
    ∀ (tokens : List Nat) (s : TcpReader) (effs : List Effect)
      (s2 : TcpReader) (d2 : List (List Nat)) (e2 : List Effect),
      sendDataLoop s tokens [] effs = some (s2, d2, e2) → s2 = s ∧ d2 = [] := by
  intro tokens
  induction tokens with
  | nil =>
    intro s effs s2 d2 e2 h
    simp only [sendDataLoop, Option.some.injEq, Prod.mk.injEq] at h
    exact ⟨h.1.symm, h.2.1.symm⟩
  | cons t rest ih =>
    intro s effs s2 d2 e2 h
    cases hc : mapContains s.connection_keys t with
    | false =>
      simp only [sendDataLoop, hc, Bool.not_false, if_true] at h
      exact ih _ _ _ _ _ h
    | true =>
      by_cases hl : mapGet s.connection_keys t < s.connections.length
      · simp only [sendDataLoop, hc, Bool.not_true, if_false, hl, if_true] at h
        rw [appendAt_nil s _ hl] at h
        exact ih _ _ _ _ _ h
      · simp [sendDataLoop, hc, hl] at h

/-- C4 (amended). For a SendData command with nonempty data, tokens are
processed from the end of the token vector; the first token found in the
table (with an in-bounds cached index) receives the entire remaining data
vector appended in FIFO order to its write queue and is reregistered for
read+write, and the command data is drained to empty by `Vec::append`; once
the data is empty, processing the remaining tokens changes no connection
state, so every later matched token receives nothing (it is only
reregistered). -/
theorem sendData_drains_to_first_match :
    (∀ (s : TcpReader) (t : Nat) (rest : List Nat) (data : List (List Nat))
       (effs : List Effect),
       mapContains s.connection_keys t = true →
       mapGet s.connection_keys t < s.connections.length →
       sendDataLoop s (t :: rest) data effs =
         sendDataLoop (appendAt s (mapGet s.connection_keys t) data) rest []
           (effs ++ [make_writable
             (connAppend (s.connections.getD (mapGet s.connection_keys t) defaultConn)
               data)])) ∧
    (∀ (tokens : List Nat) (s : TcpReader) (effs : List Effect)
       (s2 : TcpReader) (d2 : List (List Nat)) (e2 : List Effect),
       sendDataLoop s tokens [] effs = some (s2, d2, e2) → s2 = s ∧ d2 = []) := by
  constructor
  · intro s t rest data effs hc hl
    simp [sendDataLoop, hc, hl]
  · exact sendDataLoop_drained

/-- C4 witness: in `c4State`, the single matched token 2 takes the whole data
vector and is reregistered; a loop run with already-drained data returns the
state unchanged. -/
theorem sendData_drains_to_first_match_witness :
    sendDataLoop c4State [2] [[5]] [] =
      sendDataLoop ⟨[⟨20, 2, [[5]]⟩, ⟨10, 1, []⟩], [(1, 1), (2, 0)]⟩ [] []
        [Effect.reregister 20 2 Ready.readWrite true true] ∧
    (c4State = c4State ∧ ([] : List (List Nat)) = []) :=
  ⟨sendData_drains_to_first_match.1 c4State 2 [] [[5]] [] (by decide) (by decide),
   sendData_drains_to_first_match.2 [1] c4State [] c4State []
     [Effect.reregister 10 1 Ready.readWrite true true] (by decide)⟩

/-- C5 (amended). When a readable event is handled for a token present in the
table (with an in-bounds cached index) and no read error is reached,
`TcpReader::readable` always sends exactly one `HandleNewData` notification —
even when zero complete messages were decoded — and the notification carries
all messages decoded in that wake as one batch in decode order. -/
theorem readable_always_notifies (s : TcpReader) (t : Nat)
    (outs : List ReadOutcome)
    (hmem : mapContains s.connection_keys t = true)
    (hlt : mapGet s.connection_keys t < s.connections.length)
    (herr : noReadError outs = true) :
    readable s t outs =
      some (s, [Effect.sendNet TcpNetworkCMD.HandleNewData t
        (decodedMessages outs)]) := by
  simp [readable, hmem, hlt, readableLoop_noerr s t outs [] herr]

/-- C5 witness: one complete message [5] followed by a would-block read
produces exactly one notification with the batch [[5]]. -/
theorem readable_always_notifies_witness :
    readable c5State 1 [ReadOutcome.ok [5] true, ReadOutcome.ok [] false] =
      some (c5State, [Effect.sendNet TcpNetworkCMD.HandleNewData 1 [[5]]]) :=
  readable_always_notifies c5State 1
    [ReadOutcome.ok [5] true, ReadOutcome.ok [] false]
    (by decide) (by decide) (by decide)

/-- C6 (amended). A poll event whose readiness is exactly error or exactly
hang-up (no other bits) is handled by `close_connection(token, true)`, which
for a live token removes the connection and sends `ConnectionClosed`; a
readiness that combines error or hang-up with any other bit matches none of
the exact-equality dispatch comparisons of `TcpReader::run` and the event is
silently dropped, with no state change and no notification. -/
theorem error_hup_exact_closes (s : TcpReader) (t : Nat) (kind : Ready)
    (outs : List ReadOutcome) :
    ((kind = Ready.errorOnly ∨ kind = Ready.hupOnly) →
      handleSocketEvent s t kind outs = close_connection s t true) ∧
    ((kind.error = true ∨ kind.hup = true) → kind ≠ Ready.errorOnly →
      kind ≠ Ready.hupOnly →
      handleSocketEvent s t kind outs = some (s, [])) := by
  constructor
  · intro h
    unfold handleSocketEvent
    rw [if_pos h]
  · intro he hne hnh
    have hr : kind ≠ Ready.readableOnly := by
      rintro rfl
      simp [Ready.readableOnly] at he
    have hw : kind ≠ Ready.writableOnly := by
      rintro rfl
      simp [Ready.writableOnly] at he
    simp [handleSocketEvent, hne, hnh, hr, hw]

/-- C6 witness: an exact hang-up readiness dispatches to `close_connection`,
while error combined with readable is dropped. -/
theorem error_hup_exact_closes_witness :
    handleSocketEvent c7State 5 Ready.hupOnly [] = close_connection c7State 5 true ∧
    handleSocketEvent c7State 5 ⟨true, false, true, false⟩ [] = some (c7State, []) :=
  ⟨(error_hup_exact_closes c7State 5 Ready.hupOnly []).1 (Or.inr rfl),
   (error_hup_exact_closes c7State 5 ⟨true, false, true, false⟩ []).2
     (Or.inl rfl) (by decide) (by decide)⟩

/-- C7. For a live token (present in the key map with an in-bounds cached
index), a CloseConnection command removes the connection and produces no
notification at all, while an exact error-readiness event on the same token
removes the connection and sends exactly one `ConnectionClosed`
notification. -/
theorem close_cmd_silent_error_event_notifies (s : TcpReader) (t : Nat)
    (socks : List Nat) (d : List (List Nat)) (outs : List ReadOutcome)
    (hmem : mapContains s.connection_keys t = true)
    (hlt : mapGet s.connection_keys t < s.connections.length) :
    notify s ⟨TcpReaderCMD.CloseConnection, socks, [t], d⟩ =
      some (⟨s.connections.eraseIdx (mapGet s.connection_keys t),
             mapRemove s.connection_keys t⟩,
            ⟨TcpReaderCMD.CloseConnection, socks, [], d⟩, []) ∧
    handleSocketEvent s t Ready.errorOnly outs =
      some (⟨s.connections.eraseIdx (mapGet s.connection_keys t),
             mapRemove s.connection_keys t⟩,
            [Effect.sendNet TcpNetworkCMD.ConnectionClosed t []]) := by
  constructor
  · simp [notify, closeLoop, close_connection, hmem, hlt]
  · unfold handleSocketEvent
    rw [if_pos (Or.inl rfl)]
    simp [close_connection, hmem, hlt]

/-- C7 witness: closing token 5 of `c7State` by command is silent; an exact
error event on it notifies once. -/
theorem close_cmd_silent_error_event_notifies_witness :
    notify c7State ⟨TcpReaderCMD.CloseConnection, [], [5], []⟩ =
      some (⟨[], []⟩, ⟨TcpReaderCMD.CloseConnection, [], [], []⟩, []) ∧
    handleSocketEvent c7State 5 Ready.errorOnly [] =
      some (⟨[], []⟩, [Effect.sendNet TcpNetworkCMD.ConnectionClosed 5 []]) :=
  close_cmd_silent_error_event_notifies c7State 5 [] [] [] (by decide) (by decide)

/-- C8. Close is idempotent: `close_connection` on a token absent from the
key map (never added, or already closed) is a complete no-op — no panic, no
table change, no notification; and after any successful close of a token, a
second close of the same token is exactly such a no-op, so it never panics,
never changes the table and never emits a second `ConnectionClosed`. -/
theorem close_connection_idempotent (s : TcpReader) (t : Nat) (b b' : Bool) :
    (mapContains s.connection_keys t = false →
      close_connection s t b = some (s, [])) ∧
    (∀ (s1 : TcpReader) (effs : List Effect),
      close_connection s t b = some (s1, effs) →
      close_connection s1 t b' = some (s1, [])) := by
  constructor
  · intro h
    simp [close_connection, h]
  · intro s1 effs h
    cases hc : mapContains s.connection_keys t with
    | false =>
      simp [close_connection, hc] at h
      obtain ⟨h1, h2⟩ := h
      subst h1
      simp [close_connection, hc]
    | true =>
      by_cases hl : mapGet s.connection_keys t < s.connections.length
      · simp [close_connection, hc, hl] at h
        obtain ⟨h1, h2⟩ := h
        subst h1
        simp [close_connection, mapContains_mapRemove]
      · simp [close_connection, hc, hl] at h

/-- C8 witness: closing the never-added token 9 in the empty reader is a
silent no-op, and so is a repeated close. -/
theorem close_connection_idempotent_witness :
    close_connection TcpReader.new 9 false = some (TcpReader.new, []) ∧
    close_connection TcpReader.new 9 true = some (TcpReader.new, []) :=
  ⟨(close_connection_idempotent TcpReader.new 9 false false).1 (by decide),
   (close_connection_idempotent TcpReader.new 9 false true).2 TcpReader.new []
     (by decide)⟩

/-- C9. A SendData token absent from the key map is skipped with no
observable effect: the loop continues with state, data and effects untouched,
and a whole SendData command naming only an absent token (with nonempty data)
leaves the state unchanged and produces no effect at all. -/
theorem sendData_absent_token_silent (s : TcpReader) (t : Nat)
    (rest : List Nat) (data : List (List Nat)) (effs : List Effect)
    (habs : mapContains s.connection_keys t = false)
    (hd : data ≠ []) :
    sendDataLoop s (t :: rest) data effs = sendDataLoop s rest data effs ∧
    notify s ⟨TcpReaderCMD.SendData, [], [t], data⟩ =
      some (s, ⟨TcpReaderCMD.SendData, [], [], data⟩, []) := by
  constructor
  · simp [sendDataLoop, habs]
  · have hlen : ¬ data.length = 0 := fun hz => hd (List.length_eq_zero.mp hz)
    simp [notify, hlen, sendDataLoop, habs]

/-- C9 witness: sending [[9]] to the absent token 4 of `c3State` has no
effect. -/
theorem sendData_absent_token_silent_witness :
    sendDataLoop c3State [4] [[9]] [] = sendDataLoop c3State [] [[9]] [] ∧
    notify c3State ⟨TcpReaderCMD.SendData, [], [4], [[9]]⟩ =
      some (c3State, ⟨TcpReaderCMD.SendData, [], [], [[9]]⟩, []) :=
  sendData_absent_token_silent c3State 4 [] [[9]] [] (by decide) (by decide)

/-- C10. A SendData command whose data vector is empty returns before any
token is examined: the state is unchanged, no effect is produced, and the
command — its token list included — is not consumed. -/
theorem sendData_empty_data_discarded (s : TcpReader) (cmd : TcpReaderCommand)
    (hc : cmd.code = TcpReaderCMD.SendData) (hd : cmd.data = []) :
    notify s cmd = some (s, cmd, []) := by
  simp [notify, hc, hd]

/-- C10 witness: an empty-data SendData naming the live token 1 (and token 2)
of `c3State` is discarded whole, token list intact. -/
theorem sendData_empty_data_discarded_witness :
    notify c3State ⟨TcpReaderCMD.SendData, [], [1, 2], []⟩ =
      some (c3State, ⟨TcpReaderCMD.SendData, [], [1, 2], []⟩, []) :=
  sendData_empty_data_discarded c3State ⟨TcpReaderCMD.SendData, [], [1, 2], []⟩
    rfl rfl

end TreeScale
